import Mathlib

/-!
Shallow embedding of `src/nicetry.py` (the `nicetry` library): a Python
implementation of the Scala-style `Try` / `Success` / `Failure` outcome type.

Modelling conventions:
- A Python exception is a `PyExc`: a class tag (`ExcClass`) plus a message.
  `ExcClass.isExceptionSubclass` records whether the class is a subclass of
  Python's `Exception` (everything here except `KeyboardInterrupt`,
  `SystemExit`, `GeneratorExit`, which subclass only `BaseException`).
  Note that in CPython `StopIteration` IS a subclass of `Exception`.
- A Python computation that may raise is `PyRes α := Except PyExc α`:
  `.ok` is a normal return, `.error` is a raised exception propagating to the
  caller. A zero-argument thunk is identified with its evaluation result
  (the factory calls it exactly once).
- A `Try` object carries an `addr : Nat` modelling Python object identity
  (`is`): methods that allocate a new object receive a `fresh` address,
  assumed distinct from the addresses of live objects; methods that return
  `self` return the same `addr`. The payload and the Success iteration
  cursor `_has_next` live in `TryData`.
- Caller-supplied functions are `PyVal → PyRes _`; "f is never invoked" is
  expressed as the result being independent of `f` (and, where the source
  returns `self`, as identity of the result with the receiver).
-/

/-- Python exception classes relevant to the library, as raised by thunks or
by the library itself. -/
inductive ExcClass where
  | stopIteration
  | unsupportedOperationException
  | zeroDivisionError
  | valueError
  | typeError
  | otherException
  | keyboardInterrupt
  | systemExit
  | generatorExit
  deriving DecidableEq, Repr

/-- Whether the class is a subclass of Python's `Exception` (and hence is
matched by `except Exception`). In CPython, `StopIteration` derives from
`Exception`; `KeyboardInterrupt`, `SystemExit` and `GeneratorExit` derive
only from `BaseException`. -/
def ExcClass.isExceptionSubclass : ExcClass → Bool
  | .keyboardInterrupt => false
  | .systemExit => false
  | .generatorExit => false
  | _ => true

/-- A raised Python exception object: its class and message. -/
structure PyExc where
  cls : ExcClass
  msg : String
  deriving DecidableEq, Repr

/-- Python values flowing through the library: payloads of `Success`,
arguments and results of caller-supplied functions. Exception objects are
first-class values (`failed` stores one as a `Success` payload). -/
inductive PyVal where
  | none
  | int (n : Int)
  | str (s : String)
  | exc (e : PyExc)
  deriving DecidableEq, Repr

/-- Whether a Python value is an error (exception) object. -/
def PyVal.isErrorObject : PyVal → Bool
  | .exc _ => true
  | _ => false

/-- Result of running a Python computation: a normal return or a raised
exception propagating to the caller. -/
abbrev PyRes (α : Type) := Except PyExc α

/-- The variant and payload of a `Try` object. `success` additionally holds
the mutable iteration cursor `_has_next` (initialised `true` by
`Success.__init__`, toggled by `Success.__next__`). -/
inductive TryData where
  | success (value : PyVal) (hasNext : Bool)
  | failure (exc : PyExc)
  deriving DecidableEq, Repr

/-- A `Try` object: its identity (`addr`, modelling Python `is`) and its
data. -/
structure Try where
  addr : Nat
  data : TryData
  deriving DecidableEq, Repr

/-- `Success.__init__`: wrap a value; the iteration cursor starts at
`_has_next = True`. `addr` is the fresh address of the new object. -/
def Success.init (addr : Nat) (value : PyVal) : Try :=
  ⟨addr, .success value true⟩

/-- `Failure.__init__`: wrap an exception object. `addr` is the fresh
address of the new object. -/
def Failure.init (addr : Nat) (exception : PyExc) : Try :=
  ⟨addr, .failure exception⟩

/-- `Try.is_failure`: `isinstance(self, Failure)`. -/
def Try.is_failure (t : Try) : Bool :=
  match t.data with
  | .failure _ => true
  | .success _ _ => false

/-- `Try.is_success`: `isinstance(self, Success)`. -/
def Try.is_success (t : Try) : Bool :=
  match t.data with
  | .failure _ => false
  | .success _ _ => true

/-- `Try.value`: the raw payload — the value of a `Success`, the exception
object of a `Failure`. -/
def Try.value : Try → PyVal
  | ⟨_, .success v _⟩ => v
  | ⟨_, .failure e⟩ => .exc e

/-- `get`: `Success.get` returns the held value; `Failure.get` re-raises the
held exception (`raise self._value`). -/
def Try.get : Try → PyRes PyVal
  | ⟨_, .success v _⟩ => .ok v
  | ⟨_, .failure e⟩ => .error e

/-- The `except Exception as e: return Failure(e)` boundary shared by the
factory and `flat_map`: a raised exception is boxed into a new `Failure`
exactly when its class subclasses `Exception`; any other `BaseException`
keeps propagating. -/
def catchIntoFailure (fresh : Nat) (r : PyRes Try) : PyRes Try :=
  match r with
  | .ok t => .ok t
  | .error e =>
    if e.cls.isExceptionSubclass then .ok (Failure.init fresh e) else .error e

/-- `Try.to`: evaluate the thunk; `return Success(f())` on a normal return,
`except Exception as e: return Failure(e)` on a raise. -/
def Try.to (fresh : Nat) (thunk : PyRes PyVal) : PyRes Try :=
  catchIntoFailure fresh (thunk.map (Success.init fresh))

/-- `Try.apply`: pure alias of `Try.to`. -/
def Try.apply (fresh : Nat) (thunk : PyRes PyVal) : PyRes Try :=
  Try.to fresh thunk

/-- `Try.failed`: `Success(self._value) if self.is_failure else
Failure(UnsupportedOperationException("Success.failed"))`. -/
def Try.failed (fresh : Nat) (t : Try) : Try :=
  if t.is_failure then Success.init fresh t.value
  else Failure.init fresh ⟨.unsupportedOperationException, "Success.failed"⟩

/-- `Try.get_or_else`: `default_value if self.is_failure else self.get()`;
the default is an already-evaluated plain value. -/
def Try.get_or_else (t : Try) (default_value : PyVal) : PyRes PyVal :=
  if t.is_failure then .ok default_value else t.get

/-- `Try.flat_map`: `try: return f(self.get()) except Exception as e:
return Failure(e)`. `self.get()` on a Failure re-raises inside the try; a
normally returned `Try` from `f` passes through unchanged. -/
def Try.flat_map (fresh : Nat) (t : Try) (f : PyVal → PyRes Try) : PyRes Try :=
  catchIntoFailure fresh (t.get.bind f)

/-- `Try.map`: `Try.to(lambda: f(self.get())) if self.is_success else
self`. -/
def Try.map (fresh : Nat) (t : Try) (f : PyVal → PyRes PyVal) : PyRes Try :=
  if t.is_success then Try.to fresh (t.get.bind f) else .ok t

/-- `Try.or_else`: `self if self.is_success else t`. -/
def Try.or_else (t other : Try) : Try :=
  if t.is_success then t else other

/-- `for_each`: `Success.for_each` returns `f(self.get())`;
`Failure.for_each` is `pass` (returns `None`, invoking nothing). -/
def Try.for_each (t : Try) (f : PyVal → PyRes PyVal) : PyRes PyVal :=
  match t.data with
  | .success _ _ => t.get.bind f
  | .failure _ => .ok .none

/-- `Try.__iter__`: `return self` — every `Try` is its own iterator. -/
def Try.iter (t : Try) : Try := t

/-- The `StopIteration` exception raised by `__next__` to signal
end-of-sequence. -/
def stopIterationError : PyExc := ⟨.stopIteration, ""⟩

/-- `__next__`. `Success.__next__`: if `_has_next`, clear it and return the
value; otherwise set `_has_next = True` again and raise `StopIteration`
(reset-on-exhaustion). `Failure.__next__`: always raise `StopIteration`.
Returns the call's outcome together with the receiver's updated state. -/
def Try.next : Try → PyRes PyVal × Try
  | ⟨a, .success v true⟩ => (.ok v, ⟨a, .success v false⟩)
  | ⟨a, .success v false⟩ => (.error stopIterationError, ⟨a, .success v true⟩)
  | ⟨a, .failure e⟩ => (.error stopIterationError, ⟨a, .failure e⟩)

/-- One iteration pass (a `for` loop over the object): repeatedly call
`__next__`, collecting yielded values; a raised `StopIteration` ends the
pass normally, any other exception propagates out of the loop. `fuel`
bounds the number of `__next__` calls. -/
def iterPass : Nat → Try → PyRes (List PyVal) × Try
  | 0, t => (.ok [], t)
  | fuel + 1, t =>
    match t.next with
    | (.ok v, t') =>
      match iterPass fuel t' with
      | (.ok vs, t'') => (.ok (v :: vs), t'')
      | (.error e, t'') => (.error e, t'')
    | (.error e, t') =>
      if e.cls = .stopIteration then (.ok [], t') else (.error e, t')

/-- Several complete iteration passes over the same object, in sequence,
collecting the outcome of each pass. -/
def iterPasses (fuel : Nat) : Nat → Try → List (PyRes (List PyVal)) × Try
  | 0, t => ([], t)
  | k + 1, t =>
    match iterPass fuel t with
    | (r, t') =>
      match iterPasses fuel k t' with
      | (rs, t'') => (r :: rs, t'')

/-- The receiver's state after `k` consecutive `__next__` calls. -/
def nextN : Nat → Try → Try
  | 0, t => t
  | k + 1, t => ((nextN k t).next).2

/-- A concrete combinator argument used to instantiate theorems: it ignores
its input and returns an already-allocated `Success(3)`. -/
def constTryFun : PyVal → PyRes Try :=
  fun _ => .ok (Success.init 5 (.int 3))

/-! Helper lemmas shared by the claim theorems. -/

/-- One complete pass over a `Success` with a fresh cursor yields `[v]` and
leaves the cursor reset (`_has_next = True` again). -/
theorem iterPass_success_true (fuel a : Nat) (v : PyVal) :
    iterPass (fuel + 2) (Success.init a v) = (.ok [v], Success.init a v) := rfl

/-- One complete pass over a `Failure` yields `[]` without raising and
leaves the object unchanged. -/
theorem iterPass_failure (fuel a : Nat) (e : PyExc) :
    iterPass (fuel + 1) (⟨a, .failure e⟩ : Try) = (.ok [], ⟨a, .failure e⟩) := rfl

/-- After `k` consecutive `__next__` calls, a fresh `Success` cursor holds
`_has_next = (k even)`. -/
theorem nextN_success_state (a : Nat) (v : PyVal) :
    ∀ k, nextN k (Success.init a v)
      = ⟨a, .success v (decide (k % 2 = 0))⟩ := by
  intro k
  induction k with
  | zero => rfl
  | succ n ih =>
    show ((nextN n (Success.init a v)).next).2 = _
    rw [ih]
    rcases Nat.mod_two_eq_zero_or_one n with h | h
    · have h2 : (n + 1) % 2 = 1 := by omega
      simp [Try.next, h, h2]
    · have h2 : (n + 1) % 2 = 0 := by omega
      simp [Try.next, h, h2]

/-! Claim theorems. -/

/-- Claim C1: for a thunk returning `v` normally, `Try.to` yields a
`Success` with `is_success = true`, `is_failure = false` and `get() = v`;
for a thunk raising a recoverable (Exception-subclass) error `e`, `Try.to`
returns normally (the error never propagates out of the factory call) with
a `Failure` having `is_failure = true` whose `get()` re-raises `e`. -/
theorem c1_factory_capture (fresh : Nat) (v : PyVal) (e : PyExc)
    (he : e.cls.isExceptionSubclass = true) :
    Try.to fresh (.ok v) = .ok (Success.init fresh v)
    ∧ (Success.init fresh v).is_success = true
    ∧ (Success.init fresh v).is_failure = false
    ∧ (Success.init fresh v).get = .ok v
    ∧ Try.to fresh (.error e) = .ok (Failure.init fresh e)
    ∧ (Failure.init fresh e).is_failure = true
    ∧ (Failure.init fresh e).get = .error e := by
  refine ⟨rfl, rfl, rfl, rfl, ?_, rfl, rfl⟩
  simp [Try.to, catchIntoFailure, Except.map, he]

/-- Witness for C1 at `v = 1`, `e = ValueError("boom")`, fresh address `0`. -/
theorem c1_factory_capture_witness :
    (⟨ExcClass.valueError, "boom"⟩ : PyExc).cls.isExceptionSubclass = true
    ∧ (Try.to 0 (.ok (.int 1)) = .ok (Success.init 0 (.int 1))
       ∧ (Success.init 0 (.int 1)).is_success = true
       ∧ (Success.init 0 (.int 1)).is_failure = false
       ∧ (Success.init 0 (.int 1)).get = .ok (.int 1)
       ∧ Try.to 0 (.error ⟨.valueError, "boom"⟩)
           = .ok (Failure.init 0 ⟨.valueError, "boom"⟩)
       ∧ (Failure.init 0 ⟨.valueError, "boom"⟩).is_failure = true
       ∧ (Failure.init 0 ⟨.valueError, "boom"⟩).get
           = .error ⟨.valueError, "boom"⟩) :=
  ⟨rfl, c1_factory_capture 0 (.int 1) ⟨.valueError, "boom"⟩ rfl⟩

/-- Claim C2 counterexample: a thunk raising `StopIteration` does not
propagate out of `Try.to`; since `StopIteration` subclasses `Exception`,
the factory's `except Exception` captures it and returns a `Failure`
boxing it. -/
theorem c2_stop_iteration_boxed_counterexample :
    Try.to 0 (.error stopIterationError)
      = .ok (Failure.init 0 stopIterationError)
    ∧ Try.to 0 (.error stopIterationError)
      ≠ (.error stopIterationError : PyRes Try) := by
  refine ⟨rfl, fun h => ?_⟩
  rw [show Try.to 0 (.error stopIterationError)
      = .ok (Failure.init 0 stopIterationError) from rfl] at h
  exact Except.noConfusion h

/-- Claim C2 amended: `StopIteration` is an `Exception` subclass, so the
factory and the capturing combinators intercept it like any other
recoverable error and convert it into a `Failure`; it does not propagate
to the caller. -/
theorem c2_stop_iteration_captured (a fresh : Nat) (v : PyVal) (hn : Bool)
    (msg : String) :
    Try.to fresh (.error ⟨.stopIteration, msg⟩)
      = .ok (Failure.init fresh ⟨.stopIteration, msg⟩)
    ∧ Try.map fresh ⟨a, .success v hn⟩ (fun _ => .error ⟨.stopIteration, msg⟩)
      = .ok (Failure.init fresh ⟨.stopIteration, msg⟩)
    ∧ Try.flat_map fresh ⟨a, .success v hn⟩
        (fun _ => .error ⟨.stopIteration, msg⟩)
      = .ok (Failure.init fresh ⟨.stopIteration, msg⟩) :=
  ⟨rfl, rfl, rfl⟩

/-- Claim C3: `Success(v).map f` equals `Try.to (lambda: f(v))` computed at
the same fresh address — a `Success` of `f v` on a normal return, a
`Failure` boxing the raised error otherwise; `Failure(e).map f` is
identity-equal to the receiver (same address, same state) and is
independent of `f` (`f` is never invoked). -/
theorem c3_map_spec (a fresh : Nat) (v : PyVal) (hn : Bool) (e : PyExc)
    (f g : PyVal → PyRes PyVal) :
    Try.map fresh ⟨a, .success v hn⟩ f = Try.to fresh (f v)
    ∧ Try.map fresh ⟨a, .failure e⟩ f = .ok (⟨a, .failure e⟩ : Try)
    ∧ Try.map fresh ⟨a, .failure e⟩ f = Try.map fresh ⟨a, .failure e⟩ g :=
  ⟨rfl, rfl, rfl⟩

/-- Claim C4: `Success(v).flat_map f` is exactly the object returned by
`f v` when `f` returns normally (not re-wrapped), and a new `Failure`
boxing the raised (recoverable) error when `f` raises; `Failure(e).flat_map
f` is a newly allocated `Failure` (distinct from the receiver) wrapping the
same error `e`, independent of `f` (`f` is never invoked). -/
theorem c4_flat_map_spec (a fresh : Nat) (v : PyVal) (hn : Bool) (e : PyExc)
    (f : PyVal → PyRes Try)
    (he : e.cls.isExceptionSubclass = true) (hfresh : fresh ≠ a) :
    (∀ t', f v = .ok t' → Try.flat_map fresh ⟨a, .success v hn⟩ f = .ok t')
    ∧ (∀ e', f v = .error e' → e'.cls.isExceptionSubclass = true →
        Try.flat_map fresh ⟨a, .success v hn⟩ f = .ok (Failure.init fresh e'))
    ∧ Try.flat_map fresh ⟨a, .failure e⟩ f = .ok (Failure.init fresh e)
    ∧ Failure.init fresh e ≠ (⟨a, .failure e⟩ : Try)
    ∧ (∀ g, Try.flat_map fresh ⟨a, .failure e⟩ f
        = Try.flat_map fresh ⟨a, .failure e⟩ g) := by
  refine ⟨?_, ?_, ?_, fun h => hfresh (congrArg Try.addr h), fun g => rfl⟩
  · intro t' ht
    simp [Try.flat_map, Try.get, Except.bind, catchIntoFailure, ht]
  · intro e' he' hcls
    simp [Try.flat_map, Try.get, Except.bind, catchIntoFailure, he', hcls]
  · simp [Try.flat_map, Try.get, Except.bind, catchIntoFailure, he]

/-- Witness for C4 at `v = 2`, `e = ValueError("x")`, receiver address `0`,
fresh address `1`, `f = constTryFun`. -/
theorem c4_flat_map_spec_witness :
    (⟨ExcClass.valueError, "x"⟩ : PyExc).cls.isExceptionSubclass = true
    ∧ (1 : Nat) ≠ 0
    ∧ ((∀ t', constTryFun (.int 2) = .ok t' →
          Try.flat_map 1 ⟨0, .success (.int 2) true⟩ constTryFun = .ok t')
       ∧ (∀ e', constTryFun (.int 2) = .error e' →
            e'.cls.isExceptionSubclass = true →
            Try.flat_map 1 ⟨0, .success (.int 2) true⟩ constTryFun
              = .ok (Failure.init 1 e'))
       ∧ Try.flat_map 1 ⟨0, .failure ⟨.valueError, "x"⟩⟩ constTryFun
           = .ok (Failure.init 1 ⟨.valueError, "x"⟩)
       ∧ Failure.init 1 ⟨.valueError, "x"⟩
           ≠ (⟨0, .failure ⟨.valueError, "x"⟩⟩ : Try)
       ∧ (∀ g, Try.flat_map 1 ⟨0, .failure ⟨.valueError, "x"⟩⟩ constTryFun
            = Try.flat_map 1 ⟨0, .failure ⟨.valueError, "x"⟩⟩ g)) :=
  ⟨rfl, by decide,
    c4_flat_map_spec 0 1 (.int 2) true ⟨.valueError, "x"⟩ constTryFun rfl
      (by decide)⟩

/-- Claim C5: any number of consecutive complete iteration passes over a
fresh `Success(v)` each yield exactly `[v]`, the cursor returning to its
initial state after every pass (indefinitely restartable); every pass over
a `Failure(e)` yields `[]` and completes normally — the held error is
never raised. -/
theorem c5_iteration_passes (a fuel passes : Nat) (v : PyVal) (e : PyExc) :
    iterPasses (fuel + 2) passes (Success.init a v)
      = (List.replicate passes (.ok [v]), Success.init a v)
    ∧ iterPasses (fuel + 1) passes (⟨a, .failure e⟩ : Try)
      = (List.replicate passes (.ok []), ⟨a, .failure e⟩) := by
  constructor
  · induction passes with
    | zero => rfl
    | succ k ih => simp [iterPasses, iterPass_success_true, ih, List.replicate]
  · induction passes with
    | zero => rfl
    | succ k ih => simp [iterPasses, iterPass_failure, ih, List.replicate]

/-- Claim C6: `failed()` on a `Failure(e)` returns `Success(e)`; on a
`Success(v)` it returns a `Failure` holding an
`UnsupportedOperationException` carrying exactly the message
`"Success.failed"`. -/
theorem c6_failed_inversion (a fresh : Nat) (v : PyVal) (hn : Bool)
    (e : PyExc) :
    Try.failed fresh ⟨a, .failure e⟩ = Success.init fresh (.exc e)
    ∧ Try.failed fresh ⟨a, .success v hn⟩
        = Failure.init fresh ⟨.unsupportedOperationException, "Success.failed"⟩ :=
  ⟨rfl, rfl⟩

/-- Claim C7: `get_or_else` returns the held value on a `Success` and the
already-evaluated default on a `Failure`, in both cases returning normally
(never raising the held error). -/
theorem c7_get_or_else_spec (a : Nat) (v d : PyVal) (hn : Bool) (e : PyExc) :
    Try.get_or_else ⟨a, .success v hn⟩ d = .ok v
    ∧ Try.get_or_else ⟨a, .failure e⟩ d = .ok d :=
  ⟨rfl, rfl⟩

/-- Claim C8 counterexample: `Failure(ValueError("x")).failed()` is a
reachable outcome (built by a combinator from a directly constructed
`Failure`) that is a `Success` holding an error object as its payload,
contradicting the claim that a `Success` never holds an error object. -/
theorem c8_success_holding_error :
    (Try.failed 1 (Failure.init 0 ⟨.valueError, "x"⟩)).is_success = true
    ∧ (Try.failed 1 (Failure.init 0 ⟨.valueError, "x"⟩)).value.isErrorObject
        = true :=
  ⟨rfl, rfl⟩

/-- Claim C8 amended: every `Failure` holds an error object as its payload,
but a `Success` may hold an error object: `failed()` on any `Failure(e)`
returns a `Success` whose payload is the error object `e`. -/
theorem c8_payload_shapes (a fresh : Nat) (e : PyExc) :
    (⟨a, .failure e⟩ : Try).value.isErrorObject = true
    ∧ (⟨a, .failure e⟩ : Try).is_failure = true
    ∧ Try.failed fresh ⟨a, .failure e⟩ = Success.init fresh (.exc e)
    ∧ (Success.init fresh (.exc e)).is_success = true
    ∧ (Success.init fresh (.exc e)).value.isErrorObject = true :=
  ⟨rfl, rfl, rfl, rfl, rfl⟩

/-- Claim C9: a thunk raising a `BaseException` that is not an `Exception`
subclass is not captured by `Try.to`: the raise propagates to the caller
and no `Failure` (indeed no `Try` at all) is produced. -/
theorem c9_base_exception_propagates (fresh : Nat) (e : PyExc)
    (he : e.cls.isExceptionSubclass = false) :
    Try.to fresh (.error e) = .error e
    ∧ ∀ t : Try, Try.to fresh (.error e) ≠ .ok t := by
  have h1 : Try.to fresh (.error e) = .error e := by
    simp [Try.to, catchIntoFailure, Except.map, he]
  exact ⟨h1, fun t ht => by rw [h1] at ht; exact Except.noConfusion ht⟩

/-- Witness for C9 at `e = KeyboardInterrupt`, fresh address `0`. -/
theorem c9_base_exception_propagates_witness :
    (⟨ExcClass.keyboardInterrupt, ""⟩ : PyExc).cls.isExceptionSubclass = false
    ∧ (Try.to 0 (.error ⟨.keyboardInterrupt, ""⟩)
         = .error ⟨.keyboardInterrupt, ""⟩
       ∧ ∀ t : Try, Try.to 0 (.error ⟨.keyboardInterrupt, ""⟩) ≠ .ok t) :=
  ⟨rfl, c9_base_exception_propagates 0 ⟨.keyboardInterrupt, ""⟩ rfl⟩

/-- Claim C10: `__iter__` returns the object itself, so all passes share
one cursor; `__next__` on an exhausted cursor raises `StopIteration` and
resets the cursor in the same call; consecutive `__next__` calls on a fresh
`Success(v)` alternate forever between yielding `v` (even call index) and
raising `StopIteration` (odd call index); and a pass begun right after a
previous pass was abandoned at the point of having consumed `v` yields the
empty sequence. -/
theorem c10_shared_cursor (a fuel k : Nat) (v : PyVal) :
    Try.iter (Success.init a v) = Success.init a v
    ∧ Try.next ⟨a, .success v false⟩
        = (.error stopIterationError, ⟨a, .success v true⟩)
    ∧ ((nextN k (Success.init a v)).next).1
        = (if k % 2 = 0 then .ok v else .error stopIterationError)
    ∧ ((Success.init a v).next).2 = (⟨a, .success v false⟩ : Try)
    ∧ iterPass (fuel + 1) ((Success.init a v).next).2
        = (.ok [], Success.init a v) := by
  refine ⟨rfl, rfl, ?_, rfl, rfl⟩
  rw [nextN_success_state]
  rcases Nat.mod_two_eq_zero_or_one k with h | h
  · simp [Try.next, h]
  · simp [Try.next, h]
